import Mathlib

/-!
Verification of the Open3D visualizer capture subsystem
(src/Visualization/Visualizer/VisualizerRender.cpp).

The capture pipeline is embedded shallowly: depth values are rationals
(the C++ code computes in double precision; the specification states the
formulas as exact identities), image planes are functions from row and
column indices, and the 16-bit store is modelled with explicit reduction
modulo 2^16 where the C++ integral conversion truncates.
-/

/-- Model of C++ std.round on a rational: rounds half away from zero,
matching the C standard round semantics. -/
def cppRound (x : ℚ) : ℤ :=
  if x < 0 then -⌊-x + 1/2⌋ else ⌊x + 1/2⌋

/-- Model of the C++ conversion of a nonnegative-or-negative integral value
to uint16_t: reduction modulo 2^16 (two-complement truncation, the behavior
of the generated code when the value does not fit). -/
def toUInt16Model (z : ℤ) : ℕ :=
  (z % 65536).toNat

/-- From VisualizerRender.cpp lines 192-194: the metric depth reconstructed
from a normalized depth sample d, with clip distances z_near and z_far:
2.0 * z_near * z_far / (z_far + z_near - (2.0 * d - 1.0) * (z_far - z_near)). -/
def zDepth (z_near z_far d : ℚ) : ℚ :=
  2 * z_near * z_far / (z_far + z_near - (2 * d - 1) * (z_far - z_near))

/-- The denominator of the reconstruction in zDepth, named for the
safety analysis. -/
def depthDenominator (z_near z_far d : ℚ) : ℚ :=
  z_far + z_near - (2 * d - 1) * (z_far - z_near)

/-- From VisualizerRender.cpp lines 195-196:
p_png[j] = min((uint16_t)round(depth_scale * z_depth), (uint16_t)INT16_MAX).
The integral conversion happens before the min. -/
def quantizeDepth (depth_scale zd : ℚ) : ℕ :=
  min (toUInt16Model (cppRound (depth_scale * zd))) 32767

/-- From VisualizerRender.cpp lines 188-197: the output 16-bit sample for one
pixel of the depth capture. A raw sample equal to 1.0 is skipped by the loop
(continue), leaving the zero-initialized output sample; otherwise the
reconstructed depth is quantized. -/
def depthPixel (z_near z_far depth_scale d : ℚ) : ℕ :=
  if d = 1 then 0
  else quantizeDepth depth_scale (zDepth z_near z_far d)

/-- The reconstruction formula as written in the specification (section 4.3
step 4), kept separate from the source-derived zDepth for comparison. -/
def specZDepth (z_near z_far d : ℚ) : ℚ :=
  (2 * z_near * z_far) / (z_far + z_near - (2 * d - 1) * (z_far - z_near))

/-- The forward projection from the specification round-trip property
(section 8): 0.5 * (1 + (z_far + z_near - 2 * z_near * z_far / z) / (z_far - z_near)). -/
def forwardDepth (z_near z_far z : ℚ) : ℚ :=
  1/2 * (1 + (z_far + z_near - 2 * z_near * z_far / z) / (z_far - z_near))

/-- From VisualizerRender.cpp lines 110-115 and 183-187: the vertical flip.
The output row i is taken from staging row height - 1 - i; a row is copied
as a whole value (byte-for-byte in the C++ memcpy). -/
def flipImage {α : Type} (height : ℕ) (rows : ℕ → α) : ℕ → α :=
  fun i => rows (height - 1 - i)

/-- From VisualizerRender.cpp lines 110-115: the color capture output is the
vertical flip of the staging buffer read from the GPU. -/
def colorCapturePng {α : Type} (height : ℕ) (staging : ℕ → α) : ℕ → α :=
  flipImage height staging

/-- From VisualizerRender.cpp lines 183-198: the depth capture output plane.
For output row i the source pointer p_depth addresses raw row height - 1 - i
of the bottom-up staging plane, and each sample is converted by depthPixel. -/
def depthCapturePng (height : ℕ) (z_near z_far depth_scale : ℚ)
    (raw : ℕ → ℕ → ℚ) : ℕ → ℕ → ℕ :=
  fun i j => depthPixel z_near z_far depth_scale (raw (height - 1 - i) j)

/-- From VisualizerRender.cpp lines 159-164: in the column-wise readback the
staging vector float_buffer is constructed with size height (value-initialized
to 0.0f), and glReadPixels(j, 0, 1, width, ...) fills its first width entries
with rows 0..width-1 of column j of the GPU depth plane; entries at index
width and above are never written (this models the case width <= height; for
width > height the call overruns the vector). -/
def floatBufferAfterRead (width : ℕ) (plane : ℕ → ℕ → ℚ) (j : ℕ) : ℕ → ℚ :=
  fun i => if i < width then plane i j else 0

/-- From VisualizerRender.cpp lines 159-168: the assembled depth buffer of the
column-wise readback strategy. The inner loop stores float_buffer[i] at
p[i * width + j] for every row i < height, so the sample at row i, column j
is floatBufferAfterRead width plane j i. -/
def columnReadback (width : ℕ) (plane : ℕ → ℕ → ℚ) : ℕ → ℕ → ℚ :=
  fun i j => floatBufferAfterRead width plane j i

/-- Modelled from the spec: the Image buffer abstraction (PrepareImage and
BytesPerLine of the Image class) is not among the provided sources; per the
data model in section 3 of the specification, row_stride is
width * channel_count * bytes_per_channel and the buffer allocation satisfies
buffer.size = row_stride * height. -/
structure ImageBuffer where
  width : ℕ
  height : ℕ
  num_of_channels : ℕ
  bytes_per_channel : ℕ

/-- Modelled from the spec: row stride in bytes of an image buffer. -/
def ImageBuffer.bytesPerLine (img : ImageBuffer) : ℕ :=
  img.width * img.num_of_channels * img.bytes_per_channel

/-- Modelled from the spec: total allocation size of an image buffer. -/
def ImageBuffer.dataSize (img : ImageBuffer) : ℕ :=
  img.bytesPerLine * img.height

/-- Modelled from the spec: PrepareImage(width, height, channels, bytes)
allocates a buffer of the derived size. -/
def prepareImage (width height num_of_channels bytes_per_channel : ℕ) :
    ImageBuffer :=
  ⟨width, height, num_of_channels, bytes_per_channel⟩

/-- From VisualizerRender.cpp lines 93-95: color staging buffer,
PrepareImage(w, h, 3, 1); the flipped png buffer at lines 107-109 uses the
same parameters. -/
def colorStagingBuffer (w h : ℕ) : ImageBuffer := prepareImage w h 3 1

/-- From VisualizerRender.cpp lines 139-141: raw float depth staging buffer,
PrepareImage(w, h, 1, 4). -/
def depthStagingBuffer (w h : ℕ) : ImageBuffer := prepareImage w h 1 4

/-- From VisualizerRender.cpp lines 181-182: 16-bit depth output buffer,
PrepareImage(w, h, 1, 2). -/
def depthPngBuffer (w h : ℕ) : ImageBuffer := prepareImage w h 1 2

/-- From VisualizerRender.cpp lines 86-92 and 132-138: the image filename is
the given one, or base ++ Capture_timestamp.png when the given one is empty. -/
def capturePngFilename (base filename timestamp : String) : String :=
  if filename = "" then base ++ "Capture_" ++ timestamp ++ ".png" else filename

/-- From VisualizerRender.cpp lines 86-92 and 132-138: the camera metadata
filename starts empty and is set to base ++ Camera_timestamp.json only when
the given filename is empty. -/
def captureCameraFilename (base filename timestamp : String) : String :=
  if filename = "" then base ++ "Camera_" ++ timestamp ++ ".json" else ""

/-- From VisualizerRender.cpp lines 117-126 and 200-209: the files written by
a capture call: always the png image, and the camera metadata json exactly
when the camera filename is nonempty. -/
def captureWrittenFiles (base filename timestamp : String) : List String :=
  capturePngFilename base filename timestamp ::
    (if captureCameraFilename base filename timestamp = "" then []
     else [captureCameraFilename base filename timestamp])

/-- A depth plane used to exhibit the column-readback defect: the sample in
row 2 of every column is 1/2, all other samples are 0. -/
def testDepthPlane : ℕ → ℕ → ℚ :=
  fun i _ => if i = 2 then 1/2 else 0

/-- A string appended on the left of another string is empty only if the left
part is empty. -/
theorem string_append_ne_empty_left (s t : String) (h : s ≠ "") :
    s ++ t ≠ "" := by
  intro hc
  apply h
  have hd : (s ++ t).data = s.data ++ t.data := String.data_append s t
  rw [hc] at hd
  have hs : s.data = [] := (List.append_eq_nil.mp hd.symm).1
  cases s
  simp_all

/-- C1: at viewport clip distances z_near = 1, z_far = 3, raw depth 1/2 and
depth_scale = 46700, the rounded quantized value is 70050, which exceeds
32767, yet the stored sample is 4514 and not the claimed 32767: the cast to
uint16_t happens before the min, so values above 65535 wrap modulo 2^16
instead of clamping. -/
theorem C1_cast_before_min_wraps :
    32767 < cppRound (46700 * zDepth 1 3 (1/2)) ∧
    depthPixel 1 3 46700 (1/2) = 4514 ∧
    depthPixel 1 3 46700 (1/2) ≠ 32767 := by
  refine ⟨?_, ?_, ?_⟩
  · norm_num [cppRound, zDepth]
  · norm_num [depthPixel, quantizeDepth, zDepth, cppRound, toUInt16Model]
    decide
  · norm_num [depthPixel, quantizeDepth, zDepth, cppRound, toUInt16Model]
    decide

/-- C2: on a viewport of width 2 and height 3, the column-wise readback does
not reproduce the depth plane: the glReadPixels call requests a column of
height equal to the viewport width (2), so row 2 of the assembled buffer
keeps the zero-initialized staging value instead of the plane value 1/2. -/
theorem C2_column_readback_wrong_height :
    columnReadback 2 testDepthPlane 2 0 ≠ testDepthPlane 2 0 ∧
    columnReadback 2 testDepthPlane 2 0 = 0 ∧
    testDepthPlane 2 0 = 1/2 := by
  refine ⟨?_, ?_, ?_⟩ <;>
    norm_num [columnReadback, floatBufferAfterRead, testDepthPlane]

/-- C3: for every raw depth sample other than 1.0, the metric depth used by
the depth capture is exactly the specification formula
(2 z_near z_far) / (z_far + z_near - (2 d - 1) (z_far - z_near)), and the
output sample is its quantization. -/
theorem C3_reconstruction_matches_spec (z_near z_far depth_scale d : ℚ)
    (h : d ≠ 1) :
    zDepth z_near z_far d = specZDepth z_near z_far d ∧
    depthPixel z_near z_far depth_scale d =
      quantizeDepth depth_scale (specZDepth z_near z_far d) := by
  refine ⟨rfl, ?_⟩
  rw [depthPixel, if_neg h]
  rfl

/-- Witness for C3 at z_near = 1, z_far = 3, depth_scale = 1000, d = 1/2. -/
theorem C3_reconstruction_matches_spec_witness :
    (1/2 : ℚ) ≠ 1 ∧
    (zDepth 1 3 (1/2) = specZDepth 1 3 (1/2) ∧
     depthPixel 1 3 1000 (1/2) = quantizeDepth 1000 (specZDepth 1 3 (1/2))) :=
  ⟨by norm_num, C3_reconstruction_matches_spec 1 3 1000 (1/2) (by norm_num)⟩

/-- C4: every pixel whose raw depth sample is exactly 1.0 yields output 0 in
the 16-bit depth image, for all clip distances and scales; the pipeline is
total, no error path exists. -/
theorem C4_no_hit_sentinel_zero (height : ℕ) (z_near z_far depth_scale : ℚ)
    (raw : ℕ → ℕ → ℚ) (i j : ℕ) (h : raw (height - 1 - i) j = 1) :
    depthCapturePng height z_near z_far depth_scale raw i j = 0 := by
  simp [depthCapturePng, depthPixel, h]

/-- Witness for C4 on a 1 by 1 viewport whose single raw sample is 1.0. -/
theorem C4_no_hit_sentinel_zero_witness :
    (fun (_ _ : ℕ) => (1 : ℚ)) (1 - 1 - 0) 0 = 1 ∧
    depthCapturePng 1 5 10 1000 (fun _ _ => (1 : ℚ)) 0 0 = 0 :=
  ⟨rfl, C4_no_hit_sentinel_zero 1 5 10 1000 (fun _ _ => 1) 0 0 rfl⟩

/-- C5: for every valid row i, the color output row i is staging row
height - 1 - i copied as a whole, flipping twice restores the original row,
and the depth output row i is likewise derived from raw row height - 1 - i. -/
theorem C5_vertical_flip (height : ℕ) (staging : ℕ → List ℕ) (i : ℕ)
    (hi : i < height) :
    colorCapturePng height staging i = staging (height - 1 - i) ∧
    colorCapturePng height (colorCapturePng height staging) i = staging i ∧
    ∀ (z_near z_far depth_scale : ℚ) (raw : ℕ → ℕ → ℚ) (j : ℕ),
      depthCapturePng height z_near z_far depth_scale raw i j =
        depthPixel z_near z_far depth_scale (raw (height - 1 - i) j) := by
  refine ⟨rfl, ?_, fun _ _ _ _ _ => rfl⟩
  show staging (height - 1 - (height - 1 - i)) = staging i
  congr 1
  omega

/-- Witness for C5 on a two-row image, checking the flip and the double
flip at row 1. -/
theorem C5_vertical_flip_witness :
    colorCapturePng 2 (fun k => [k]) 1 = [0] ∧
    colorCapturePng 2 (colorCapturePng 2 (fun k => [k])) 1 = [1] := by
  have h := C5_vertical_flip 2 (fun k => [k]) 1 (by norm_num)
  exact ⟨by simpa using h.1, by simpa using h.2.1⟩

/-- C6: for clip distances 0 < z_near < z_far and any normalized depth d in
[0, 1), the forward projection applied to the reconstructed metric depth
returns d exactly, over the rationals. -/
theorem C6_depth_round_trip (z_near z_far d : ℚ) (h1 : 0 < z_near)
    (h2 : z_near < z_far) (h3 : 0 ≤ d) (h4 : d < 1) :
    forwardDepth z_near z_far (zDepth z_near z_far d) = d := by
  have hf : (0 : ℚ) < z_far := h1.trans h2
  have hn : z_near ≠ 0 := ne_of_gt h1
  have hfz : z_far ≠ 0 := ne_of_gt hf
  have hfn : z_far - z_near ≠ 0 := sub_ne_zero.mpr (ne_of_gt h2)
  have hden : 0 < z_far + z_near - (2 * d - 1) * (z_far - z_near) := by
    nlinarith
  have hdz : z_far + z_near - (2 * d - 1) * (z_far - z_near) ≠ 0 :=
    ne_of_gt hden
  have h2nf : 2 * z_near * z_far ≠ 0 := by positivity
  unfold forwardDepth zDepth
  rw [div_div_eq_mul_div, mul_div_cancel_left₀ _ h2nf]
  field_simp

/-- Witness for C6 at z_near = 1, z_far = 2, d = 1/2. -/
theorem C6_depth_round_trip_witness :
    (0 : ℚ) < 1 ∧ (1 : ℚ) < 2 ∧ (0 : ℚ) ≤ 1/2 ∧ (1/2 : ℚ) < 1 ∧
    forwardDepth 1 2 (zDepth 1 2 (1/2)) = 1/2 :=
  ⟨by norm_num, by norm_num, by norm_num, by norm_num,
   C6_depth_round_trip 1 2 (1/2) (by norm_num) (by norm_num) (by norm_num)
     (by norm_num)⟩

/-- C7: with an empty filename both captures write an image and a camera
metadata file sharing the same timestamp (ScreenCapture/ScreenCamera and
DepthCapture/DepthCamera); with a nonempty filename only the image file named
by the caller is written and metadata export is skipped. -/
theorem C7_written_files (timestamp filename : String) :
    (filename = "" →
      captureWrittenFiles "Screen" filename timestamp =
        ["Screen" ++ "Capture_" ++ timestamp ++ ".png",
         "Screen" ++ "Camera_" ++ timestamp ++ ".json"] ∧
      captureWrittenFiles "Depth" filename timestamp =
        ["Depth" ++ "Capture_" ++ timestamp ++ ".png",
         "Depth" ++ "Camera_" ++ timestamp ++ ".json"]) ∧
    (filename ≠ "" →
      captureWrittenFiles "Screen" filename timestamp = [filename] ∧
      captureWrittenFiles "Depth" filename timestamp = [filename]) := by
  constructor
  · intro h
    subst h
    have hs : "ScreenCamera_" ++ timestamp ++ ".json" ≠ "" := by
      apply string_append_ne_empty_left
      apply string_append_ne_empty_left
      decide
    have hd : "DepthCamera_" ++ timestamp ++ ".json" ≠ "" := by
      apply string_append_ne_empty_left
      apply string_append_ne_empty_left
      decide
    constructor <;>
      simp [captureWrittenFiles, capturePngFilename, captureCameraFilename,
        hs, hd]
  · intro h
    constructor <;>
      simp [captureWrittenFiles, capturePngFilename, captureCameraFilename, h]

/-- Witness for C7: an auto-named capture with timestamp T writes both
files, an explicitly named capture writes only the image. -/
theorem C7_written_files_witness :
    captureWrittenFiles "Screen" "" "T" =
      ["Screen" ++ "Capture_" ++ "T" ++ ".png",
       "Screen" ++ "Camera_" ++ "T" ++ ".json"] ∧
    captureWrittenFiles "Depth" "out.png" "T" = ["out.png"] :=
  ⟨((C7_written_files "T" "").1 rfl).1,
   ((C7_written_files "T" "out.png").2 (by decide)).2⟩

/-- C8: for a viewport of width w and height h, the color buffers hold
w * h * 3 bytes, the raw float depth staging buffer holds w * h * 4 bytes,
the 16-bit depth output buffer holds w * h * 2 bytes, and every buffer
satisfies size = row stride times height. -/
theorem C8_buffer_sizes (w h : ℕ) :
    (colorStagingBuffer w h).dataSize = w * h * 3 ∧
    (depthStagingBuffer w h).dataSize = w * h * 4 ∧
    (depthPngBuffer w h).dataSize = w * h * 2 ∧
    (colorStagingBuffer w h).dataSize =
      (colorStagingBuffer w h).bytesPerLine * (colorStagingBuffer w h).height ∧
    (depthStagingBuffer w h).dataSize =
      (depthStagingBuffer w h).bytesPerLine * (depthStagingBuffer w h).height ∧
    (depthPngBuffer w h).dataSize =
      (depthPngBuffer w h).bytesPerLine * (depthPngBuffer w h).height := by
  refine ⟨?_, ?_, ?_, rfl, rfl, rfl⟩ <;>
    simp [colorStagingBuffer, depthStagingBuffer, depthPngBuffer,
      prepareImage, ImageBuffer.dataSize, ImageBuffer.bytesPerLine] <;>
    ring

/-- C9: every sample of the 16-bit depth output is at most 32767: the no-hit
branch stores 0 and the quantization branch ends in a min with INT16_MAX. -/
theorem C9_output_le_int16_max (z_near z_far depth_scale d : ℚ) :
    depthPixel z_near z_far depth_scale d ≤ 32767 := by
  unfold depthPixel quantizeDepth
  split
  · exact Nat.zero_le _
  · exact min_le_right _ _

/-- C10: under 0 < z_near < z_far and a raw sample d in [0, 1], the
reconstruction denominator lies in [2 z_near, 2 z_far], hence is strictly
positive, and the reconstructed metric depth is positive. -/
theorem C10_denominator_safe (z_near z_far d : ℚ) (h1 : 0 < z_near)
    (h2 : z_near < z_far) (h3 : 0 ≤ d) (h4 : d ≤ 1) :
    2 * z_near ≤ depthDenominator z_near z_far d ∧
    depthDenominator z_near z_far d ≤ 2 * z_far ∧
    0 < depthDenominator z_near z_far d ∧
    0 < zDepth z_near z_far d := by
  have hl : 2 * z_near ≤ depthDenominator z_near z_far d := by
    unfold depthDenominator
    nlinarith
  have hu : depthDenominator z_near z_far d ≤ 2 * z_far := by
    unfold depthDenominator
    nlinarith
  have hpos : 0 < depthDenominator z_near z_far d :=
    lt_of_lt_of_le (by linarith) hl
  refine ⟨hl, hu, hpos, ?_⟩
  have hz : zDepth z_near z_far d =
      2 * z_near * z_far / depthDenominator z_near z_far d := rfl
  rw [hz]
  exact div_pos (by nlinarith) hpos

/-- Witness for C10 at z_near = 1, z_far = 2, d = 1/2. -/
theorem C10_denominator_safe_witness :
    (0 : ℚ) < 1 ∧ (1 : ℚ) < 2 ∧ (0 : ℚ) ≤ 1/2 ∧ (1/2 : ℚ) ≤ 1 ∧
    (2 * 1 ≤ depthDenominator 1 2 (1/2) ∧
     depthDenominator 1 2 (1/2) ≤ 2 * 2 ∧
     0 < depthDenominator 1 2 (1/2) ∧
     0 < zDepth 1 2 (1/2)) :=
  ⟨by norm_num, by norm_num, by norm_num, by norm_num,
   C10_denominator_safe 1 2 (1/2) (by norm_num) (by norm_num) (by norm_num)
     (by norm_num)⟩
